import Mathlib

/-!
Verification development for the a2d 2D sprite-rendering engine.

The geometry primitive (src/geo/rect.rs), the sprite batch
(src/g2d/sprite/batch.rs), the graphics context's scale and render
operations (src/g2d/g2d.rs) and the background poll thread
(src/g2d/imp.rs) are shallowly embedded below.  f32 values are
modelled as exact rationals together with an explicit NaN; every
comparison, like in IEEE semantics, is false as soon as NaN is
involved, and `==` on NaN is false.  Finite-precision rounding and
overflow to infinity are idealised away: none of the properties
below depends on them.
-/

namespace A2d

/-- Model of an f32 value: an exact rational, or NaN. -/
inductive F32 where
  | nan : F32
  | fin : ℚ → F32
deriving DecidableEq, Repr

namespace F32

/-- Rust `a < b` on f32: false whenever either operand is NaN. -/
def lt : F32 → F32 → Bool
  | .fin a, .fin b => decide (a < b)
  | _, _ => false

/-- Rust `a > b` on f32: false whenever either operand is NaN. -/
def gt : F32 → F32 → Bool
  | .fin a, .fin b => decide (b < a)
  | _, _ => false

/-- Rust `a == b` on f32: false whenever either operand is NaN. -/
def beq : F32 → F32 → Bool
  | .fin a, .fin b => decide (a = b)
  | _, _ => false

/-- f32 subtraction; NaN propagates. -/
def sub : F32 → F32 → F32
  | .fin a, .fin b => .fin (a - b)
  | _, _ => .nan

/-- f32 addition; NaN propagates. -/
def add : F32 → F32 → F32
  | .fin a, .fin b => .fin (a + b)
  | _, _ => .nan

/-- f32 multiplication; NaN propagates. -/
def mul : F32 → F32 → F32
  | .fin a, .fin b => .fin (a * b)
  | _, _ => .nan

/-- Rust `f32::abs`; NaN propagates. -/
def abs : F32 → F32
  | .fin a => .fin |a|
  | .nan => .nan

/-- Whether the value is finite (not NaN). -/
def isFin : F32 → Bool
  | .fin _ => true
  | .nan => false

end F32

/-- `f32::EPSILON * 128.0`, the `EPSILON` constant of `appx_eq`
(src/geo/rect.rs line 66); exact in f32. -/
def EPSILON : ℚ := 128 / 2 ^ 23

/-- `RELTH` of `appx_eq` (src/geo/rect.rs line 67). -/
def RELTH : ℚ := EPSILON

/-- `f32::MAX` as an exact rational. -/
def F32_MAX : ℚ := 2 ^ 128 - 2 ^ 104

/-- The private `min` helper of src/geo/rect.rs lines 74-80:
`if a < b { a } else { b }` (named `fmin` here to avoid the
prelude's `min`). -/
def fmin (a b : F32) : F32 :=
  if F32.lt a b then a else b

/-- The private `max` helper of src/geo/rect.rs lines 82-88:
`if a > b { a } else { b }` (named `fmax` here to avoid the
prelude's `max`). -/
def fmax (a b : F32) : F32 :=
  if F32.gt a b then a else b

/-- `appx_eq` of src/geo/rect.rs lines 61-72:
`a == b || { let diff = (a - b).abs();
let norm = min(a.abs() + b.abs(), f32::MAX);
diff < max(RELTH, EPSILON * norm) }`. -/
def appx_eq (a b : F32) : Bool :=
  F32.beq a b ||
    F32.lt (F32.abs (F32.sub a b))
      (fmax (F32.fin RELTH)
        (F32.mul (F32.fin EPSILON)
          (fmin (F32.add (F32.abs a) (F32.abs b)) (F32.fin F32_MAX))))

/-- The `Rect` struct of src/geo/rect.rs: two corner points. -/
structure Rect where
  upper_left : F32 × F32
  lower_right : F32 × F32
deriving DecidableEq, Repr

/-- `Rect::new` (src/geo/rect.rs lines 17-28): rejects the rect when
either coordinate pair is approximately equal, otherwise normalises
the corners with the comparison-based `min`/`max`. -/
def Rect.new (x1 y1 x2 y2 : F32) : Option Rect :=
  if appx_eq x1 x2 || appx_eq y1 y2 then none
  else some { upper_left := (fmin x1 x2, fmin y1 y2),
              lower_right := (fmax x1 x2, fmax y1 y2) }

/-- `impl From<[f32; 4]> for Rect` (src/geo/rect.rs lines 39-46):
routes through `Rect::new`; the `panic!` arm is modelled as `none`. -/
def Rect.fromArray : F32 × F32 × F32 × F32 → Option Rect
  | (a, b, c, d) =>
    match Rect.new a b c d with
    | some r => some r
    | none => none

/-- `impl From<[[f32; 2]; 2]> for Rect` (src/geo/rect.rs lines 48-52):
flattens the point pair and delegates to the 4-array conversion. -/
def Rect.from2x2 : (F32 × F32) × (F32 × F32) → Option Rect
  | (p, q) => Rect.fromArray (p.1, p.2, q.1, q.2)

/-- Modelled from the spec: the `Point` type (`crate::Point`) is not
under src/; the spec describes conversion "from two point values",
and src/geo/rect.rs line 56 uses `points[i].to_array()`.  A point is
a 2D value whose `to_array` view lists its two coordinates. -/
structure Point where
  x : F32
  y : F32
deriving DecidableEq, Repr

/-- `Point::to_array`, the flattening used by the point-pair
conversion. -/
def Point.to_array (p : Point) : F32 × F32 := (p.x, p.y)

/-- `impl From<[Point; 2]> for Rect` (src/geo/rect.rs lines 54-58):
delegates to the 2x2-array conversion via `to_array`. -/
def Rect.fromPoints : Point × Point → Option Rect
  | (p, q) => Rect.from2x2 (p.to_array, q.to_array)

/-- The spec's approximate-equality rule exactly as worded:
`|a-b| < max(RELATIVE_THRESHOLD, EPSILON * (|a|+|b|))`, with no
clamp on the norm (comparisons with NaN are false). -/
def specApproxEq (a b : F32) : Bool :=
  F32.lt (F32.abs (F32.sub a b))
    (fmax (F32.fin RELTH)
      (F32.mul (F32.fin EPSILON) (F32.add (F32.abs a) (F32.abs b))))

/-- The spec's rule amended with the clamp the code applies:
`|a-b| < max(RELATIVE_THRESHOLD, EPSILON * min(|a|+|b|, f32::MAX))`. -/
def specApproxEqClamped (a b : F32) : Bool :=
  F32.lt (F32.abs (F32.sub a b))
    (fmax (F32.fin RELTH)
      (F32.mul (F32.fin EPSILON)
        (fmin (F32.add (F32.abs a) (F32.abs b)) (F32.fin F32_MAX))))

/-- Modelled from the spec: the `Instance` type (`crate::Instance`)
is not under src/; the spec describes it as one sprite draw record
with a destination rect, a source rect within the sheet, a rotation
in radians, and a color tint. -/
structure Instance where
  destination : Rect
  src : Rect
  rotation : F32
  color : F32 × F32 × F32 × F32
deriving DecidableEq, Repr

/-- The `SpriteSheet` struct of src/g2d/sprite/sheet.rs: after
construction it only carries its texture bind group, modelled as an
opaque handle. -/
structure SpriteSheet where
  bind_group : ℕ
deriving DecidableEq, Repr

/-- Modelled from the spec: the `SpriteBatch` struct.  `sheet` and
`instances` follow src/g2d/sprite/batch.rs lines 5-8; that file has
no translation field, yet `Graphics2D::render` (src/g2d/g2d.rs line
241) calls `batch.translation()`, so the translation offset — "2D
vector added to all instance destinations at render time, default
zero" with an accessor and a mutator — is taken from the spec's
words. -/
structure SpriteBatch where
  sheet : SpriteSheet
  instances : List Instance
  translation : F32 × F32
deriving DecidableEq, Repr

namespace SpriteBatch

/-- `SpriteBatch::new` (src/g2d/sprite/batch.rs lines 11-16): empty
instance list; the translation default of zero is from the spec. -/
def new (sheet : SpriteSheet) : SpriteBatch :=
  { sheet := sheet, instances := [], translation := (F32.fin 0, F32.fin 0) }

/-- `SpriteBatch::get` (line 26-28): `&self.instances[i]`; the
out-of-bounds indexing panic is modelled as `none`. -/
def get (b : SpriteBatch) (i : ℕ) : Option Instance :=
  b.instances.get? i

/-- `SpriteBatch::get_mut` (lines 30-32): the instance a mutable
borrow at index `i` refers to; the out-of-bounds panic is `none`. -/
def get_mut (b : SpriteBatch) (i : ℕ) : Option Instance :=
  b.instances.get? i

/-- `SpriteBatch::set` (lines 34-36): `self.instances[i] = inst`;
the out-of-bounds indexing panic is modelled as `none`. -/
def set (b : SpriteBatch) (i : ℕ) (inst : Instance) : Option SpriteBatch :=
  if i < b.instances.length then
    some { b with instances := b.instances.set i inst }
  else none

/-- `SpriteBatch::add` (lines 38-40): `self.instances.push(inst)`. -/
def add (b : SpriteBatch) (inst : Instance) : SpriteBatch :=
  { b with instances := b.instances ++ [inst] }

/-- `SpriteBatch::last` (lines 42-44): `self.instances.last()`. -/
def last (b : SpriteBatch) : Option Instance :=
  b.instances.getLast?

/-- `SpriteBatch::pop` (lines 46-48): `self.instances.pop();` — the
popped value is discarded, and popping an empty vector does
nothing. -/
def pop (b : SpriteBatch) : SpriteBatch :=
  { b with instances := b.instances.dropLast }

/-- Modelled from the spec: the translation mutator (the spec's
"Translation accessor/mutator"; absent from src/'s batch.rs). -/
def set_translation (b : SpriteBatch) (t : F32 × F32) : SpriteBatch :=
  { b with translation := t }

/-- Appending a whole list of instances one `add` at a time. -/
def addAll (b : SpriteBatch) (l : List Instance) : SpriteBatch :=
  l.foldl add b

/-- Calling `pop` `n` times. -/
def popN (b : SpriteBatch) : ℕ → SpriteBatch
  | 0 => b
  | n + 1 => popN b.pop n

end SpriteBatch

/-- A value bound as a bind group during a render pass: a sheet's
texture group (by handle), the shared scale group (carrying the
scale uniform buffer's contents), or a per-batch translation group
(carrying the translation buffer's contents). -/
inductive BindGroupVal where
  | texture (id : ℕ)
  | scaleGroup (data : F32 × F32)
  | translationGroup (data : F32 × F32)
deriving DecidableEq, Repr

/-- A command recorded into the render pass, in order. -/
inductive RenderCmd where
  | setPipeline
  | setBindGroup (slot : ℕ) (group : BindGroupVal)
  | setVertexBuffer (slot : ℕ) (data : List Instance)
  | draw (firstVertex numVertices firstInstance numInstances : ℕ)
deriving DecidableEq, Repr

/-- A buffer created and filled on the device during `render` (or
`set_scale`), identified by its contents. -/
inductive Upload where
  | instanceBuffer (data : List Instance)
  | translationBuffer (data : F32 × F32)
deriving DecidableEq, Repr

/-- The `BatchInfo` record built in the first loop of
`Graphics2D::render` (src/g2d/g2d.rs lines 223-227). -/
structure BatchInfo where
  batch : SpriteBatch
  instance_buffer : List Instance
  translation_bind_group : BindGroupVal
deriving DecidableEq, Repr

/-- The `Graphics2D` state the embedded operations touch: the
current scale, the contents of the scale uniform buffer, and the
poll-thread slot (g2d.rs lines 23-24; imp.rs's constructor also
initialises `poll_thread: None`).  GPU handles that the claims never
observe are omitted. -/
structure Graphics2D where
  scale : F32 × F32
  scale_uniform_buffer : F32 × F32
  poll_thread : Option ℕ
deriving DecidableEq, Repr

namespace Graphics2D

/-- `Graphics2D::set_scale` (src/g2d/g2d.rs lines 214-220): stores
the new scale and re-creates the scale uniform buffer from it. -/
def set_scale (g : Graphics2D) (new_scale : F32 × F32) : Graphics2D :=
  { g with scale := new_scale, scale_uniform_buffer := new_scale }

/-- The first loop of `render` (src/g2d/g2d.rs lines 228-263): walk
the batches in order; a batch with no instances is skipped
(`continue`); otherwise create its instance buffer and translation
buffer and record a `BatchInfo`.  Returns the uploads performed in
order and the collected infos. -/
def buildBatchInfos : List SpriteBatch → List Upload × List BatchInfo
  | [] => ([], [])
  | b :: rest =>
    let (ups, infos) := buildBatchInfos rest
    if b.instances.isEmpty then (ups, infos)
    else
      (Upload.instanceBuffer b.instances :: Upload.translationBuffer b.translation :: ups,
       { batch := b, instance_buffer := b.instances,
         translation_bind_group := BindGroupVal.translationGroup b.translation } :: infos)

/-- The render-pass loop of `render` (src/g2d/g2d.rs lines 301-310):
for each collected info, bind the sheet's texture group at slot 0,
the shared scale group at slot 1, the batch's translation group at
slot 2, set its instance buffer, and draw vertices `0..6` over
instances `0..len`. -/
def emitCmds (scaleGroup : BindGroupVal) : List BatchInfo → List RenderCmd
  | [] => []
  | info :: rest =>
    RenderCmd.setBindGroup 0 (BindGroupVal.texture info.batch.sheet.bind_group)
      :: RenderCmd.setBindGroup 1 scaleGroup
      :: RenderCmd.setBindGroup 2 info.translation_bind_group
      :: RenderCmd.setVertexBuffer 0 info.instance_buffer
      :: RenderCmd.draw 0 6 0 info.batch.instances.length
      :: emitCmds scaleGroup rest

/-- `Graphics2D::render` (src/g2d/g2d.rs lines 222-314): build the
batch infos (skipping empty batches), build the scale bind group
from the current scale uniform buffer, set the pipeline once, then
emit the per-batch commands.  Returns the buffer uploads and the
recorded render-pass commands. -/
def render (g : Graphics2D) (batches : List SpriteBatch) : List Upload × List RenderCmd :=
  let (uploads, infos) := buildBatchInfos batches
  let scaleGroup := BindGroupVal.scaleGroup g.scale_uniform_buffer
  (uploads, RenderCmd.setPipeline :: emitCmds scaleGroup infos)

/-- `Graphics2D::ensure_polling` (src/g2d/imp.rs lines 191-209):
spawn the poll thread only when none exists yet. -/
def ensure_polling (g : Graphics2D) : Graphics2D :=
  match g.poll_thread with
  | some _ => g
  | none => { g with poll_thread := some 0 }

end Graphics2D

/-- Result of `std::sync::mpsc::Receiver::try_recv` as the poll loop
sees it. -/
inductive TryRecvResult where
  | ok
  | chanEmpty
  | disconnected
deriving DecidableEq, Repr

/-- State of the shutdown channel at one iteration of the poll
loop: nothing sent yet, a shutdown signal sent, or the sender
dropped. -/
inductive ChannelState where
  | quiet
  | signaled
  | dropped
deriving DecidableEq, Repr

/-- `try_recv` on the shutdown channel (src/g2d/imp.rs line 198). -/
def try_recv : ChannelState → TryRecvResult
  | .quiet => .chanEmpty
  | .signaled => .ok
  | .dropped => .disconnected

/-- An observable action of the poll thread's loop body. -/
inductive ThreadAction where
  | checkChannel
  | devicePoll
  | sleepDur
  | yieldNow
deriving DecidableEq, Repr

/-- One iteration of the poll loop body (src/g2d/imp.rs lines
197-205): first check the channel; on `Ok(())` or `Disconnected`
break, otherwise poll the device, sleep, and yield.  Returns the
actions performed in order and whether the loop exits. -/
def pollLoopIter (c : ChannelState) : List ThreadAction × Bool :=
  match try_recv c with
  | .ok => ([ThreadAction.checkChannel], true)
  | .disconnected => ([ThreadAction.checkChannel], true)
  | .chanEmpty =>
    ([ThreadAction.checkChannel, ThreadAction.devicePoll,
      ThreadAction.sleepDur, ThreadAction.yieldNow], false)

/-- Running the poll loop over a finite trace of channel states:
`true` iff the loop exits during the trace. -/
def pollLoopRun : List ChannelState → Bool
  | [] => false
  | c :: rest => if (pollLoopIter c).2 then true else pollLoopRun rest

/-- A concrete rect fixture for witness statements. -/
def rect0 : Rect :=
  { upper_left := (F32.fin 0, F32.fin 0), lower_right := (F32.fin 1, F32.fin 1) }

/-- A concrete sprite-instance fixture for witness statements. -/
def inst0 : Instance :=
  { destination := rect0, src := rect0, rotation := F32.fin 0,
    color := (F32.fin 1, F32.fin 1, F32.fin 1, F32.fin 1) }

/-- A concrete sheet fixture for witness statements. -/
def sheet0 : SpriteSheet := { bind_group := 7 }

/-- A one-instance batch fixture for witness statements. -/
def batch1 : SpriteBatch :=
  { sheet := sheet0, instances := [inst0], translation := (F32.fin 3, F32.fin 4) }

/-- A graphics-context fixture for witness statements. -/
def ctx0 : Graphics2D :=
  { scale := (F32.fin 1, F32.fin 1),
    scale_uniform_buffer := (F32.fin 1, F32.fin 1),
    poll_thread := none }

theorem fmin_fin (a c : ℚ) : fmin (F32.fin a) (F32.fin c) = F32.fin (Min.min a c) := by
  by_cases h : a < c
  · simp [fmin, F32.lt, h, min_eq_left h.le]
  · simp [fmin, F32.lt, h, min_eq_right (le_of_not_lt h)]

theorem fmax_fin (a c : ℚ) : fmax (F32.fin a) (F32.fin c) = F32.fin (Max.max a c) := by
  by_cases h : c < a
  · simp [fmax, F32.gt, h, max_eq_left h.le]
  · simp [fmax, F32.gt, h, max_eq_right (le_of_not_lt h)]

theorem appx_eq_eq_clamped (a b : F32) : appx_eq a b = specApproxEqClamped a b := by
  cases a with
  | nan =>
    cases b <;> simp [appx_eq, specApproxEqClamped, F32.beq, F32.sub, F32.abs, F32.lt]
  | fin qa =>
    cases b with
    | nan => simp [appx_eq, specApproxEqClamped, F32.beq, F32.sub, F32.abs, F32.lt]
    | fin qb =>
      by_cases h : qa = qb
      · subst h
        have hpos : (0 : ℚ) < Max.max RELTH (EPSILON * Min.min (|qa| + |qa|) F32_MAX) := by
          have : (0 : ℚ) < RELTH := by norm_num [RELTH, EPSILON]
          exact lt_max_of_lt_left this
        simp [appx_eq, specApproxEqClamped, F32.beq, F32.sub, F32.abs, F32.add, F32.mul,
          fmin_fin, fmax_fin, F32.lt, hpos]
      · simp [appx_eq, specApproxEqClamped, F32.beq, h]

theorem appx_eq_fin_false_of (a b : ℚ) (hne : a ≠ b)
    (h : Max.max RELTH (EPSILON * Min.min (|a| + |b|) F32_MAX) ≤ |a - b|) :
    appx_eq (F32.fin a) (F32.fin b) = false := by
  simp only [appx_eq, F32.beq, F32.sub, F32.abs, F32.add, F32.mul, fmin_fin, fmax_fin, F32.lt]
  rw [Bool.or_eq_false_iff]
  exact ⟨by rw [decide_eq_false_iff_not]; exact hne,
         by rw [decide_eq_false_iff_not]; exact not_lt.mpr h⟩

/-- C1: the claim's iff fails on the code.  At `x1 = f32::MAX` and
`x2 = f32::MAX - 3·2^111` the spec's unclamped rule
`|a-b| < max(RELTH, EPSILON·(|a|+|b|))` holds (so the claim demands
`None`), yet `Rect::new` returns `Some`, because the code clamps the
norm to `f32::MAX` before multiplying by `EPSILON`. -/
theorem Rect.new_violates_spec_rule :
    specApproxEq (F32.fin (2 ^ 128 - 2 ^ 104)) (F32.fin (2 ^ 128 - 2 ^ 104 - 3 * 2 ^ 111)) = true
    ∧ Rect.new (F32.fin (2 ^ 128 - 2 ^ 104)) (F32.fin 0)
        (F32.fin (2 ^ 128 - 2 ^ 104 - 3 * 2 ^ 111)) (F32.fin 1)
      = some { upper_left := (F32.fin (2 ^ 128 - 2 ^ 104 - 3 * 2 ^ 111), F32.fin 0),
               lower_right := (F32.fin (2 ^ 128 - 2 ^ 104), F32.fin 1) } := by
  constructor
  · have h1 : ((2:ℚ) ^ 128 - 2 ^ 104) - (2 ^ 128 - 2 ^ 104 - 3 * 2 ^ 111) = 3 * 2 ^ 111 := by
      ring
    simp only [specApproxEq, F32.sub, F32.abs, F32.add, F32.mul, fmax_fin, F32.lt, h1]
    rw [decide_eq_true_eq]
    rw [abs_of_pos (by norm_num), abs_of_pos (by norm_num), abs_of_pos (by norm_num)]
    rw [max_eq_right (by norm_num [RELTH, EPSILON])]
    norm_num [EPSILON]
  · rw [Rect.new]
    have hx : appx_eq (F32.fin (2 ^ 128 - 2 ^ 104))
        (F32.fin (2 ^ 128 - 2 ^ 104 - 3 * 2 ^ 111)) = false := by
      refine appx_eq_fin_false_of _ _ (by norm_num) ?_
      rw [abs_of_pos (by norm_num), abs_of_pos (by norm_num),
        abs_of_pos (show (0:ℚ) < (2 ^ 128 - 2 ^ 104) - (2 ^ 128 - 2 ^ 104 - 3 * 2 ^ 111) by
          norm_num)]
      rw [min_eq_right (by norm_num [F32_MAX])]
      rw [max_eq_right (by norm_num [RELTH, EPSILON, F32_MAX])]
      norm_num [EPSILON, F32_MAX]
    have hy : appx_eq (F32.fin 0) (F32.fin 1) = false := by
      refine appx_eq_fin_false_of _ _ (by norm_num) ?_
      norm_num [RELTH, EPSILON, F32_MAX]
    rw [hx, hy]
    simp only [Bool.or_self, if_false, fmin_fin, fmax_fin]
    norm_num

/-- C1 (amended): `Rect::new x1 y1 x2 y2` returns `None` iff `x1 ≈ x2`
or `y1 ≈ y2` under the clamped rule
`|a-b| < max(RELTH, EPSILON · min(|a|+|b|, f32::MAX))`; otherwise it
returns `Some` with `upper_left = (min(x1,x2), min(y1,y2))` and
`lower_right = (max(x1,x2), max(y1,y2))`, where the code's
comparison-based `min`/`max` agree with the mathematical ones on
finite values. -/
theorem Rect.new_eq_none_iff_clamped_rule (x1 y1 x2 y2 : F32) :
    (Rect.new x1 y1 x2 y2 = none
      ↔ specApproxEqClamped x1 x2 = true ∨ specApproxEqClamped y1 y2 = true)
    ∧ (Rect.new x1 y1 x2 y2 = none
        ∨ Rect.new x1 y1 x2 y2
          = some { upper_left := (fmin x1 x2, fmin y1 y2),
                   lower_right := (fmax x1 x2, fmax y1 y2) })
    ∧ (∀ a c : ℚ, fmin (F32.fin a) (F32.fin c) = F32.fin (Min.min a c)
        ∧ fmax (F32.fin a) (F32.fin c) = F32.fin (Max.max a c)) := by
  refine ⟨?_, ?_, fun a c => ⟨fmin_fin a c, fmax_fin a c⟩⟩
  · rw [Rect.new, ← appx_eq_eq_clamped, ← appx_eq_eq_clamped]
    by_cases hx : appx_eq x1 x2 <;> by_cases hy : appx_eq y1 y2 <;> simp [hx, hy]
  · rw [Rect.new]
    by_cases h : appx_eq x1 x2 || appx_eq y1 y2 <;> simp [h]

/-- Witness for C1's amended theorem at a concrete input: the rect
from `(0, 0)` to `(1, 1)` is not rejected. -/
theorem Rect.new_eq_none_iff_clamped_rule_witness :
    Rect.new (F32.fin 0) (F32.fin 0) (F32.fin 1) (F32.fin 1) ≠ none := by
  intro h
  rcases (Rect.new_eq_none_iff_clamped_rule (F32.fin 0) (F32.fin 0)
      (F32.fin 1) (F32.fin 1)).1.mp h with hc | hc <;>
    revert hc <;>
    simp only [specApproxEqClamped, F32.sub, F32.abs, F32.add, F32.mul, fmin_fin, fmax_fin,
      F32.lt, decide_eq_true_eq] <;>
    norm_num [RELTH, EPSILON, F32_MAX]

theorem appx_eq_nan_left (b : F32) : appx_eq F32.nan b = false := by
  cases b <;> simp [appx_eq, F32.beq, F32.sub, F32.abs, F32.lt]

theorem appx_eq_nan_right (a : F32) : appx_eq a F32.nan = false := by
  cases a <;> simp [appx_eq, F32.beq, F32.sub, F32.abs, F32.lt]

theorem appx_eq_fin_comm (a c : ℚ) :
    appx_eq (F32.fin a) (F32.fin c) = appx_eq (F32.fin c) (F32.fin a) := by
  simp only [appx_eq, F32.beq, F32.sub, F32.abs, F32.add, F32.mul, fmin_fin, fmax_fin, F32.lt]
  rw [abs_sub_comm, add_comm |a| |c|]
  congr 1
  exact decide_eq_decide.mpr ⟨Eq.symm, Eq.symm⟩

theorem appx_eq_minmax (a c : ℚ) (h : appx_eq (F32.fin a) (F32.fin c) = false) :
    appx_eq (F32.fin (Min.min a c)) (F32.fin (Max.max a c)) = false := by
  rcases le_total a c with hle | hle
  · rwa [min_eq_left hle, max_eq_right hle]
  · rw [min_eq_right hle, max_eq_left hle, appx_eq_fin_comm]
    exact h

theorem Rect.new_fin_some (a b c d : ℚ)
    (hx : appx_eq (F32.fin a) (F32.fin c) = false)
    (hy : appx_eq (F32.fin b) (F32.fin d) = false) :
    Rect.new (F32.fin a) (F32.fin b) (F32.fin c) (F32.fin d)
      = some { upper_left := (F32.fin (Min.min a c), F32.fin (Min.min b d)),
               lower_right := (F32.fin (Max.max a c), F32.fin (Max.max b d)) } := by
  rw [Rect.new, hx, hy]
  simp [fmin_fin, fmax_fin]

/-- C10: NaN is never detected as approximately equal to anything, so
`Rect::new(NaN, 0.0, 1.0, 2.0)` returns `Some` rather than `None`;
the x-components of the resulting corners are both `1.0`, so
`upper_left < lower_right` fails componentwise. -/
theorem Rect.new_accepts_nan :
    (∀ b, appx_eq F32.nan b = false) ∧ (∀ a, appx_eq a F32.nan = false)
    ∧ Rect.new F32.nan (F32.fin 0) (F32.fin 1) (F32.fin 2)
      = some { upper_left := (F32.fin 1, F32.fin 0), lower_right := (F32.fin 1, F32.fin 2) }
    ∧ F32.lt (F32.fin 1) (F32.fin 1) = false := by
  refine ⟨appx_eq_nan_left, appx_eq_nan_right, ?_, by simp [F32.lt]⟩
  have hy : appx_eq (F32.fin 0) (F32.fin 2) = false := by
    refine appx_eq_fin_false_of _ _ (by norm_num) ?_
    norm_num [RELTH, EPSILON, F32_MAX]
  rw [Rect.new, appx_eq_nan_left, hy]
  simp [fmin, fmax, F32.lt, F32.gt]

/-- C6: the round-trip claim fails on the code at a NaN input:
`Rect::new(NaN, 0.0, 1.0, 2.0)` succeeds, but converting the
resulting rect's corner array back panics (modelled as `none`),
because both x-corners collapse to `1.0`. -/
theorem Rect.roundtrip_fails_on_nan :
    Rect.new F32.nan (F32.fin 0) (F32.fin 1) (F32.fin 2)
      = some { upper_left := (F32.fin 1, F32.fin 0), lower_right := (F32.fin 1, F32.fin 2) }
    ∧ Rect.fromArray (F32.fin 1, F32.fin 0, F32.fin 1, F32.fin 2) = none := by
  constructor
  · have hy : appx_eq (F32.fin 0) (F32.fin 2) = false := by
      refine appx_eq_fin_false_of _ _ (by norm_num) ?_
      norm_num [RELTH, EPSILON, F32_MAX]
    rw [Rect.new, appx_eq_nan_left, hy]
    simp [fmin, fmax, F32.lt, F32.gt]
  · have hx : appx_eq (F32.fin 1) (F32.fin 1) = true := by
      simp [appx_eq, F32.beq]
    rw [Rect.fromArray, Rect.new, hx]
    simp

/-- C6 (amended): for every `Rect r` constructed by `Rect::new` from
inputs none of which is NaN, converting `r` to its corner array and
back succeeds and yields a rect equal to `r`. -/
theorem Rect.roundtrip (x1 y1 x2 y2 : F32) (r : Rect)
    (h1 : x1.isFin = true) (h2 : y1.isFin = true)
    (h3 : x2.isFin = true) (h4 : y2.isFin = true)
    (h : Rect.new x1 y1 x2 y2 = some r) :
    Rect.fromArray (r.upper_left.1, r.upper_left.2, r.lower_right.1, r.lower_right.2)
      = some r := by
  cases x1 with
  | nan => simp [F32.isFin] at h1
  | fin a =>
  cases y1 with
  | nan => simp [F32.isFin] at h2
  | fin b =>
  cases x2 with
  | nan => simp [F32.isFin] at h3
  | fin c =>
  cases y2 with
  | nan => simp [F32.isFin] at h4
  | fin d =>
  rw [Rect.new] at h
  by_cases hx : appx_eq (F32.fin a) (F32.fin c) = true
  · simp [hx] at h
  · by_cases hy : appx_eq (F32.fin b) (F32.fin d) = true
    · simp [hy] at h
    · rw [Bool.not_eq_true] at hx hy
      rw [hx, hy] at h
      simp only [Bool.or_self, Bool.false_eq_true, if_false, Option.some_inj] at h
      subst h
      simp only [fmin_fin, fmax_fin]
      rw [Rect.fromArray]
      rw [Rect.new_fin_some _ _ _ _ (appx_eq_minmax a c hx) (appx_eq_minmax b d hy)]
      rw [min_eq_left min_le_max, min_eq_left min_le_max,
        max_eq_right min_le_max, max_eq_right min_le_max]

/-- Witness for the amended round-trip theorem at the concrete rect
from `(0, 0)` to `(1, 1)`. -/
theorem Rect.roundtrip_witness :
    Rect.fromArray (F32.fin 0, F32.fin 0, F32.fin 1, F32.fin 1)
      = some { upper_left := (F32.fin 0, F32.fin 0),
               lower_right := (F32.fin 1, F32.fin 1) } := by
  have h01 : appx_eq (F32.fin 0) (F32.fin 1) = false := by
    refine appx_eq_fin_false_of _ _ (by norm_num) ?_
    norm_num [RELTH, EPSILON, F32_MAX]
  have h := Rect.roundtrip (F32.fin 0) (F32.fin 0) (F32.fin 1) (F32.fin 1)
    { upper_left := (F32.fin 0, F32.fin 0), lower_right := (F32.fin 1, F32.fin 1) }
    rfl rfl rfl rfl (by rw [Rect.new_fin_some _ _ _ _ h01 h01]; norm_num)
  exact h

/-- C7: each `From` conversion (4-array, 2×2 array, point pair)
routes through `Rect::new` and panics (modelled as `none`) exactly
when `Rect::new` returns `None` on those coordinates, and otherwise
yields the very rect `Rect::new` yields. -/
theorem Rect.conversions_route_through_new (a b c d : F32) :
    Rect.fromArray (a, b, c, d) = Rect.new a b c d
    ∧ Rect.from2x2 ((a, b), (c, d)) = Rect.new a b c d
    ∧ Rect.fromPoints (Point.mk a b, Point.mk c d) = Rect.new a b c d := by
  have h : Rect.fromArray (a, b, c, d) = Rect.new a b c d := by
    rw [Rect.fromArray]
    cases Rect.new a b c d <;> simp
  exact ⟨h, by rw [Rect.from2x2]; exact h,
    by rw [Rect.fromPoints, Point.to_array, Point.to_array, Rect.from2x2]; exact h⟩

theorem buildBatchInfos_eq (batches : List SpriteBatch) :
    Graphics2D.buildBatchInfos batches =
      ((batches.filter fun b => !b.instances.isEmpty).bind fun b =>
          [Upload.instanceBuffer b.instances, Upload.translationBuffer b.translation],
       (batches.filter fun b => !b.instances.isEmpty).map fun b =>
          { batch := b, instance_buffer := b.instances,
            translation_bind_group := BindGroupVal.translationGroup b.translation }) := by
  induction batches with
  | nil => rfl
  | cons b rest ih =>
    cases h : b.instances.isEmpty <;>
      simp [Graphics2D.buildBatchInfos, ih, List.filter_cons, h]

theorem emitCmds_eq (sg : BindGroupVal) (infos : List BatchInfo) :
    Graphics2D.emitCmds sg infos = infos.bind fun info =>
      [RenderCmd.setBindGroup 0 (BindGroupVal.texture info.batch.sheet.bind_group),
       RenderCmd.setBindGroup 1 sg,
       RenderCmd.setBindGroup 2 info.translation_bind_group,
       RenderCmd.setVertexBuffer 0 info.instance_buffer,
       RenderCmd.draw 0 6 0 info.batch.instances.length] := by
  induction infos with
  | nil => rfl
  | cons i rest ih => simp [Graphics2D.emitCmds, ih]

theorem render_eq (g : Graphics2D) (batches : List SpriteBatch) :
    g.render batches =
      ((batches.filter fun b => !b.instances.isEmpty).bind fun b =>
          [Upload.instanceBuffer b.instances, Upload.translationBuffer b.translation],
       RenderCmd.setPipeline ::
         ((batches.filter fun b => !b.instances.isEmpty).bind fun b =>
            [RenderCmd.setBindGroup 0 (BindGroupVal.texture b.sheet.bind_group),
             RenderCmd.setBindGroup 1 (BindGroupVal.scaleGroup g.scale_uniform_buffer),
             RenderCmd.setBindGroup 2 (BindGroupVal.translationGroup b.translation),
             RenderCmd.setVertexBuffer 0 b.instances,
             RenderCmd.draw 0 6 0 b.instances.length])) := by
  rw [Graphics2D.render, buildBatchInfos_eq]
  simp [emitCmds_eq, List.bind_map]

/-- C2: `render` skips zero-instance batches entirely (no upload, no
draw), and for each non-empty batch, in caller order, uploads its
instance buffer and translation buffer and records its sheet's
texture group at slot 0, the shared scale group at slot 1, its own
translation group at slot 2, its instance buffer, and one draw of 6
vertices times its instance count.  A list of only-empty batches
yields no uploads and no commands beyond the pipeline bind. -/
theorem render_characterization (g : Graphics2D) (batches : List SpriteBatch) :
    g.render batches =
      ((batches.filter fun b => !b.instances.isEmpty).bind fun b =>
          [Upload.instanceBuffer b.instances, Upload.translationBuffer b.translation],
       RenderCmd.setPipeline ::
         ((batches.filter fun b => !b.instances.isEmpty).bind fun b =>
            [RenderCmd.setBindGroup 0 (BindGroupVal.texture b.sheet.bind_group),
             RenderCmd.setBindGroup 1 (BindGroupVal.scaleGroup g.scale_uniform_buffer),
             RenderCmd.setBindGroup 2 (BindGroupVal.translationGroup b.translation),
             RenderCmd.setVertexBuffer 0 b.instances,
             RenderCmd.draw 0 6 0 b.instances.length]))
    ∧ g.render (batches.filter fun b => b.instances.isEmpty)
        = ([], [RenderCmd.setPipeline]) := by
  refine ⟨render_eq g batches, ?_⟩
  rw [render_eq]
  have h : ((batches.filter fun b => b.instances.isEmpty).filter
      fun b => !b.instances.isEmpty) = [] := by
    rw [List.filter_filter]
    apply List.filter_eq_nil.mpr
    intro b _
    cases b.instances.isEmpty <;> simp
  rw [h]
  rfl

/-- C3: a fresh batch has translation zero; the translation mutator
stores the new offset without touching the instances; and at render
time each non-empty batch's translation vector is uploaded as that
batch's own uniform buffer and bound at slot 2, while the uploaded
instance data is exactly `instances()` (the translation is not baked
into the instances). -/
theorem translation_per_batch_uniform :
    (∀ s, (SpriteBatch.new s).translation = (F32.fin 0, F32.fin 0))
    ∧ (∀ (b : SpriteBatch) (t : F32 × F32),
        (b.set_translation t).translation = t
        ∧ (b.set_translation t).instances = b.instances)
    ∧ (∀ (g : Graphics2D) (batches : List SpriteBatch) (b : SpriteBatch),
        b ∈ batches → b.instances ≠ [] →
          Upload.translationBuffer b.translation ∈ (g.render batches).1
          ∧ Upload.instanceBuffer b.instances ∈ (g.render batches).1
          ∧ RenderCmd.setBindGroup 2 (BindGroupVal.translationGroup b.translation)
              ∈ (g.render batches).2) := by
  refine ⟨fun s => rfl, fun b t => ⟨rfl, rfl⟩, fun g batches b hmem hne => ?_⟩
  have hb : b ∈ batches.filter fun b => !b.instances.isEmpty := by
    rw [List.mem_filter]
    exact ⟨hmem, by simp [List.isEmpty_iff, hne]⟩
  rw [render_eq]
  refine ⟨?_, ?_, ?_⟩
  · exact List.mem_bind.mpr ⟨b, hb, by simp⟩
  · exact List.mem_bind.mpr ⟨b, hb, by simp⟩
  · exact List.mem_cons.mpr (Or.inr (List.mem_bind.mpr ⟨b, hb, by simp⟩))

/-- Witness for C3's theorem: a concrete one-instance batch's
translation and instance buffers are both uploaded by a concrete
render call. -/
theorem translation_per_batch_uniform_witness :
    Upload.translationBuffer batch1.translation ∈ (ctx0.render [batch1]).1
    ∧ Upload.instanceBuffer batch1.instances ∈ (ctx0.render [batch1]).1
    ∧ RenderCmd.setBindGroup 2 (BindGroupVal.translationGroup batch1.translation)
        ∈ (ctx0.render [batch1]).2 :=
  translation_per_batch_uniform.2.2 ctx0 [batch1] batch1 (by simp)
    (by simp [batch1])

theorem addAll_eq (b : SpriteBatch) (l : List Instance) :
    b.addAll l = { b with instances := b.instances ++ l } := by
  induction l generalizing b with
  | nil => simp [SpriteBatch.addAll]
  | cons x xs ih =>
    rw [SpriteBatch.addAll, List.foldl_cons]
    rw [show List.foldl SpriteBatch.add (b.add x) xs = (b.add x).addAll xs from rfl]
    rw [ih]
    simp [SpriteBatch.add]

theorem popN_of_length_le (n : ℕ) (b : SpriteBatch) (h : b.instances.length ≤ n) :
    b.popN n = { b with instances := [] } := by
  induction n generalizing b with
  | zero =>
    have hnil : b.instances = [] := List.eq_nil_of_length_eq_zero (Nat.le_zero.mp h)
    rw [SpriteBatch.popN]
    cases b
    simp_all
  | succ n ih =>
    rw [SpriteBatch.popN]
    have hlen : b.pop.instances.length ≤ n := by
      simp only [SpriteBatch.pop, List.length_dropLast]
      omega
    rw [ih b.pop hlen]
    rfl

/-- C4: appending N instances to a fresh batch yields exactly those
instances in append order; `pop` called N times returns the batch to
the freshly-created state; `pop` on an empty batch is a no-op; and
`last` on an empty batch is `none`. -/
theorem batch_add_pop_roundtrip (s : SpriteSheet) (l : List Instance) :
    ((SpriteBatch.new s).addAll l).instances = l
    ∧ ((SpriteBatch.new s).addAll l).popN l.length = SpriteBatch.new s
    ∧ (∀ b : SpriteBatch, b.instances = [] → b.pop = b)
    ∧ (SpriteBatch.new s).pop = SpriteBatch.new s
    ∧ (SpriteBatch.new s).last = none := by
  have hinst : ((SpriteBatch.new s).addAll l).instances = l := by
    rw [addAll_eq]
    rfl
  refine ⟨hinst, ?_, ?_, rfl, rfl⟩
  · rw [addAll_eq, popN_of_length_le l.length _ (by simp [SpriteBatch.new])]
    rfl
  · intro b hb
    cases b
    simp_all [SpriteBatch.pop]

/-- Witness for C4's theorem: a concrete append then pop returns the
concrete batch to empty, and pop on a concrete empty batch is a
no-op. -/
theorem batch_add_pop_roundtrip_witness :
    ((SpriteBatch.new sheet0).addAll [inst0]).instances = [inst0]
    ∧ ((SpriteBatch.new sheet0).addAll [inst0]).popN 1 = SpriteBatch.new sheet0
    ∧ (SpriteBatch.new sheet0).pop = SpriteBatch.new sheet0 :=
  ⟨(batch_add_pop_roundtrip sheet0 [inst0]).1,
   (batch_add_pop_roundtrip sheet0 [inst0]).2.1,
   (batch_add_pop_roundtrip sheet0 []).2.2.1 (SpriteBatch.new sheet0) rfl⟩

/-- C8: for `i < n`, `get`, `get_mut` and `set` access or replace
the i-th instance in append order; for `i >= n` each is a fatal
indexing error (modelled as `none`), a branch unreachable under the
precondition `i < n`. -/
theorem batch_index_access (b : SpriteBatch) (i : ℕ) (inst : Instance) :
    (∀ h : i < b.instances.length,
        b.get i = some (b.instances.get ⟨i, h⟩)
        ∧ b.get_mut i = some (b.instances.get ⟨i, h⟩)
        ∧ b.set i inst = some { b with instances := b.instances.set i inst })
    ∧ (b.instances.length ≤ i →
        b.get i = none ∧ b.get_mut i = none ∧ b.set i inst = none) := by
  constructor
  · intro h
    refine ⟨?_, ?_, ?_⟩
    · rw [SpriteBatch.get, List.get?_eq_get h]
    · rw [SpriteBatch.get_mut, List.get?_eq_get h]
    · rw [SpriteBatch.set, if_pos h]
  · intro h
    refine ⟨?_, ?_, ?_⟩
    · rw [SpriteBatch.get]
      exact List.get?_eq_none.mpr h
    · rw [SpriteBatch.get_mut]
      exact List.get?_eq_none.mpr h
    · rw [SpriteBatch.set, if_neg (not_lt.mpr h)]

/-- Witness for C8's theorem: index 0 of a one-instance batch is the
appended instance, and index 5 is out of bounds. -/
theorem batch_index_access_witness :
    batch1.get 0 = some inst0 ∧ batch1.get 5 = none :=
  ⟨((batch_index_access batch1 0 inst0).1 (by simp [batch1])).1,
   ((batch_index_access batch1 5 inst0).2 (by simp [batch1])).1⟩

theorem render_slot1_scale (g : Graphics2D) (batches : List SpriteBatch)
    (grp : BindGroupVal)
    (h : RenderCmd.setBindGroup 1 grp ∈ (g.render batches).2) :
    grp = BindGroupVal.scaleGroup g.scale_uniform_buffer := by
  rw [render_eq] at h
  rcases List.mem_cons.mp h with h | h
  · simp at h
  · rcases List.mem_bind.mp h with ⟨b, _, hmem⟩
    simp only [List.mem_cons, List.not_mem_nil, or_false] at hmem
    rcases hmem with h | h | h | h | h <;> simp_all

/-- C5: `set_scale` stores the new scale, re-uploads the scale
uniform buffer with it, and every scale-slot bind group of a render
issued after `set_scale` carries the new scale, while a render
issued before carries the context's prior uniform contents. -/
theorem set_scale_updates_uniform (g : Graphics2D) (ns : F32 × F32)
    (batches : List SpriteBatch) :
    (g.set_scale ns).scale = ns
    ∧ (g.set_scale ns).scale_uniform_buffer = ns
    ∧ (∀ grp, RenderCmd.setBindGroup 1 grp ∈ ((g.set_scale ns).render batches).2 →
        grp = BindGroupVal.scaleGroup ns)
    ∧ (∀ grp, RenderCmd.setBindGroup 1 grp ∈ (g.render batches).2 →
        grp = BindGroupVal.scaleGroup g.scale_uniform_buffer) :=
  ⟨rfl, rfl, fun _ h => render_slot1_scale _ _ _ h, fun _ h => render_slot1_scale _ _ _ h⟩

/-- Witness for C5's theorem: after a concrete `set_scale [2,2]`, a
concrete render's scale-slot group is the new scale. -/
theorem set_scale_updates_uniform_witness :
    (ctx0.set_scale (F32.fin 2, F32.fin 2)).scale = (F32.fin 2, F32.fin 2)
    ∧ RenderCmd.setBindGroup 1 (BindGroupVal.scaleGroup (F32.fin 2, F32.fin 2))
        ∈ ((ctx0.set_scale (F32.fin 2, F32.fin 2)).render [batch1]).2
    ∧ (BindGroupVal.scaleGroup (F32.fin 2, F32.fin 2) : BindGroupVal)
        = BindGroupVal.scaleGroup (F32.fin 2, F32.fin 2) := by
  have hmem : RenderCmd.setBindGroup 1 (BindGroupVal.scaleGroup (F32.fin 2, F32.fin 2))
      ∈ ((ctx0.set_scale (F32.fin 2, F32.fin 2)).render [batch1]).2 := by
    rw [render_eq]
    simp [batch1, ctx0, Graphics2D.set_scale]
  exact ⟨(set_scale_updates_uniform ctx0 (F32.fin 2, F32.fin 2) [batch1]).1, hmem,
    (set_scale_updates_uniform ctx0 (F32.fin 2, F32.fin 2) [batch1]).2.2.1 _ hmem⟩

/-- C9: every iteration of the poll loop checks the shutdown channel
first and, when continuing, then polls the device, sleeps and
yields; an iteration exits the loop iff the channel state is a sent
shutdown signal or a dropped sender; a run over a trace of channel
states exits iff some state in the trace is signaled or dropped; and
`ensure_polling` spawns a thread only when none exists (a second
call changes nothing). -/
theorem poll_thread_loop :
    (∀ c, ((pollLoopIter c).1.head? = some ThreadAction.checkChannel))
    ∧ (∀ c, (pollLoopIter c).2 = false →
        (pollLoopIter c).1
          = [ThreadAction.checkChannel, ThreadAction.devicePoll,
             ThreadAction.sleepDur, ThreadAction.yieldNow])
    ∧ (∀ c, (pollLoopIter c).2 = true
        ↔ c = ChannelState.signaled ∨ c = ChannelState.dropped)
    ∧ (∀ cs, pollLoopRun cs = true
        ↔ ∃ c ∈ cs, c = ChannelState.signaled ∨ c = ChannelState.dropped)
    ∧ (∀ g : Graphics2D,
        g.ensure_polling.poll_thread.isSome = true
        ∧ g.ensure_polling.ensure_polling = g.ensure_polling
        ∧ (∀ t, g.poll_thread = some t → g.ensure_polling = g)) := by
  refine ⟨fun c => by cases c <;> rfl,
    fun c h => by cases c <;> simp_all [pollLoopIter, try_recv],
    fun c => by cases c <;> simp [pollLoopIter, try_recv],
    fun cs => ?_,
    fun g => ⟨?_, ?_, fun t ht => ?_⟩⟩
  · induction cs with
    | nil => simp [pollLoopRun]
    | cons c rest ih =>
      rw [pollLoopRun]
      cases c <;> simp [pollLoopIter, try_recv, ih]
  · rcases hg : g.poll_thread with _ | t <;>
      simp [Graphics2D.ensure_polling, hg]
  · rcases hg : g.poll_thread with _ | t <;>
      simp [Graphics2D.ensure_polling, hg]
  · simp [Graphics2D.ensure_polling, ht]

/-- Witness for C9's theorem: concrete loop runs and a concrete
context with an existing poll thread. -/
theorem poll_thread_loop_witness :
    ((pollLoopIter ChannelState.quiet).1
        = [ThreadAction.checkChannel, ThreadAction.devicePoll,
           ThreadAction.sleepDur, ThreadAction.yieldNow])
    ∧ pollLoopRun [ChannelState.quiet, ChannelState.signaled] = true
    ∧ ({ ctx0 with poll_thread := some 3 } : Graphics2D).ensure_polling
        = { ctx0 with poll_thread := some 3 } :=
  ⟨poll_thread_loop.2.1 ChannelState.quiet rfl,
   (poll_thread_loop.2.2.2.1 [ChannelState.quiet, ChannelState.signaled]).mpr
     ⟨ChannelState.signaled, by simp, Or.inl rfl⟩,
   (poll_thread_loop.2.2.2.2 { ctx0 with poll_thread := some 3 }).2.2 3 rfl⟩

end A2d
